import Mathlib

/-!
Verification of the XKTimer module (XKLib: `xktimer.c`, `xktimer.h`).

The module keeps a bounded registry of caller-owned timer records and, when
polled, advances each record's state machine (single-shot, periodic,
dual-state) against a monotonic millisecond clock.

Shallow embedding conventions:
* `clock_t` values and `uint32_t` timeouts are modelled as `Nat` (the clock is
  monotonic and non-negative; tick wraparound is outside the claims).
* A C timer pointer is `Option xktimer_t`; `none` models `NULL`, so each
  API-level function mirrors the `xktimer_assert` null check of the source.
* The current value of `xktimer_clock()` is passed explicitly as `now`.
* A callback pointer is modelled by its presence (`callback : Bool`); the
  invocations a call performs are returned as the list of arguments passed
  (`List Nat`), in invocation order.
* The registry (`xktimer_ref` array plus `xktimer_ref_idx`, in the
  `XKTIMER_NO_MALLOC` fixed-array build) is the list of registered records;
  its length is `xktimer_ref_idx`.
-/

namespace XKTimer

/-- Timer type tag `XKTIMER_SINGLE_SHOT` (xktimer.h). -/
def XKTIMER_SINGLE_SHOT : Nat := 1

/-- Timer type tag `XKTIMER_PERIODIC` (xktimer.h). -/
def XKTIMER_PERIODIC : Nat := 2

/-- Timer type tag `XKTIMER_DUAL_STATE` (xktimer.h). -/
def XKTIMER_DUAL_STATE : Nat := 3

/-- Registry capacity `XKTIMER_MAX_TIMERS` (xktimer.h). -/
def XKTIMER_MAX_TIMERS : Nat := 30

/-- The `xktimer_t` record (xktimer.h): type tag, run flag, dual-state phase,
the two timeouts, the absolute deadline (`ticks`), and the callback (modelled
by its presence). -/
structure xktimer_t where
  type : Nat
  enabled : Bool
  state : Nat
  timeout : Nat
  timeout2 : Nat
  ticks : Nat
  callback : Bool
  deriving DecidableEq

/-- `xktimer_assert` (xktimer.c): non-null check on a timer pointer. -/
def xktimer_assert : Option xktimer_t → Bool
  | none => false
  | some _ => true

/-- Body of `xktimer_update_ticks` (xktimer.c) after the null check:
`ticks := xktimer_clock() + timeout` when `state == 0`, else
`ticks := xktimer_clock() + timeout2`. -/
def update_ticks_body (now : Nat) (t : xktimer_t) : xktimer_t :=
  if t.state = 0 then { t with ticks := now + t.timeout }
  else { t with ticks := now + t.timeout2 }

/-- `xktimer_update_ticks` (xktimer.c): no-op on a null timer. -/
def xktimer_update_ticks (now : Nat) (timer : Option xktimer_t) :
    Option xktimer_t :=
  match timer with
  | none => none
  | some t => some (update_ticks_body now t)

/-- `xktimer_add` (xktimer.c): fails on a null timer or a full registry;
otherwise initializes the record's fields, recomputes its deadline via
`xktimer_update_ticks`, and appends it (`xktimer_add_ptr`).  Returns the new
registry, the (possibly updated) record behind the pointer, and the C
function's boolean result. -/
def xktimer_add (now : Nat) (reg : List xktimer_t) (timer : Option xktimer_t)
    (ty : Nat) (timeout : Nat) (callback : Bool) :
    List xktimer_t × Option xktimer_t × Bool :=
  match timer with
  | none => (reg, none, false)
  | some t =>
    if XKTIMER_MAX_TIMERS ≤ reg.length then (reg, some t, false)
    else
      let u := update_ticks_body now
        { t with type := ty, enabled := false, state := 0,
                 timeout := timeout, timeout2 := 0, callback := callback }
      (reg ++ [u], some u, true)

/-- `xktimer_add_dual` (xktimer.c): like `xktimer_add` but fixes the type field at
`XKTIMER_DUAL_STATE` and stores both timeouts. -/
def xktimer_add_dual (now : Nat) (reg : List xktimer_t)
    (timer : Option xktimer_t) (timeout timeout2 : Nat) (callback : Bool) :
    List xktimer_t × Option xktimer_t × Bool :=
  match timer with
  | none => (reg, none, false)
  | some t =>
    if XKTIMER_MAX_TIMERS ≤ reg.length then (reg, some t, false)
    else
      let u := update_ticks_body now
        { t with type := XKTIMER_DUAL_STATE, enabled := false, state := 0,
                 timeout := timeout, timeout2 := timeout2,
                 callback := callback }
      (reg ++ [u], some u, true)

/-- `xktimer_timeout` (xktimer.c): first timeout; 0 on a null timer. -/
def xktimer_timeout : Option xktimer_t → Nat
  | none => 0
  | some t => t.timeout

/-- `xktimer_timeout2` (xktimer.c): second timeout; 0 on a null timer. -/
def xktimer_timeout2 : Option xktimer_t → Nat
  | none => 0
  | some t => t.timeout2

/-- `xktimer_next_timeout` (xktimer.c): `timer->ticks - clock()`; 0 on a null
timer.  (The source uses the raw `clock()` value here, passed as `rawClock`;
the difference is a `clock_t`, modelled as `Int`.) -/
def xktimer_next_timeout (rawClock : Int) : Option xktimer_t → Int
  | none => 0
  | some t => (t.ticks : Int) - rawClock

/-- Body of `xktimer_set_timeout` (xktimer.c) after the null check: store the
timeout, then recompute the deadline. -/
def set_timeout_body (now tmo : Nat) (t : xktimer_t) : xktimer_t :=
  update_ticks_body now { t with timeout := tmo }

/-- `xktimer_set_timeout` (xktimer.c): no-op on a null timer. -/
def xktimer_set_timeout (now tmo : Nat) (timer : Option xktimer_t) :
    Option xktimer_t :=
  match timer with
  | none => none
  | some t => some (set_timeout_body now tmo t)

/-- Body of `xktimer_set_timeout_dual` (xktimer.c) after the null check:
reset the phase back down, store both timeouts, recompute the deadline. -/
def set_timeout_dual_body (now tmo tmo2 : Nat) (t : xktimer_t) : xktimer_t :=
  update_ticks_body now { t with state := 0, timeout := tmo, timeout2 := tmo2 }

/-- `xktimer_set_timeout_dual` (xktimer.c): no-op on a null timer. -/
def xktimer_set_timeout_dual (now tmo tmo2 : Nat) (timer : Option xktimer_t) :
    Option xktimer_t :=
  match timer with
  | none => none
  | some t => some (set_timeout_dual_body now tmo tmo2 t)

/-- Body of `xktimer_start` (xktimer.c) after the null check:
`enabled := true`, `state := 0`, recompute the deadline. -/
def start_body (now : Nat) (t : xktimer_t) : xktimer_t :=
  update_ticks_body now { t with enabled := true, state := 0 }

/-- `xktimer_start` (xktimer.c): no-op on a null timer. -/
def xktimer_start (now : Nat) (timer : Option xktimer_t) : Option xktimer_t :=
  match timer with
  | none => none
  | some t => some (start_body now t)

/-- Body of `xktimer_stop` (xktimer.c) after the null check:
`enabled := false`, nothing else. -/
def stop_body (t : xktimer_t) : xktimer_t :=
  { t with enabled := false }

/-- `xktimer_stop` (xktimer.c): no-op on a null timer. -/
def xktimer_stop (timer : Option xktimer_t) : Option xktimer_t :=
  match timer with
  | none => none
  | some t => some (stop_body t)

/-- `xktimer_running` (xktimer.c): `enabled`; false on a null timer. -/
def xktimer_running : Option xktimer_t → Bool
  | none => false
  | some t => t.enabled

/-- `xktimer_periodic` (xktimer.c): given the current clock `now`, the
caller-owned tick reference and a period, fires (returning `true` and the new
reference value `now`) when `now >= ticks + period`, else returns `false`
leaving the reference unchanged.  The pair is (result, reference after the
call). -/
def xktimer_periodic (now ticks period : Nat) : Bool × Nat :=
  if ticks + period ≤ now then (true, now) else (false, ticks)

/-- Body of `xktimer_handle` (xktimer.c) after the null and `enabled` checks:
if expired (`xktimer_clock() >= ticks`), apply the per-type switch
(single-shot disables; periodic does nothing; dual-state toggles the phase;
any other type matches no case), then recompute the deadline, then invoke the
callback (if present) with the current `state`.  The second component lists
the callback invocations performed, in order. -/
def handle_body (now : Nat) (t : xktimer_t) : xktimer_t × List Nat :=
  if t.enabled = false then (t, [])
  else if t.ticks ≤ now then
    let t1 :=
      if t.type = XKTIMER_SINGLE_SHOT then { t with enabled := false }
      else if t.type = XKTIMER_PERIODIC then t
      else if t.type = XKTIMER_DUAL_STATE then
        (if t.state = 0 then { t with state := 1 } else { t with state := 0 })
      else t
    let t2 := update_ticks_body now t1
    (t2, if t2.callback = true then [t2.state] else [])
  else (t, [])

/-- `xktimer_handle` (xktimer.c): no-op on a null timer. -/
def xktimer_handle (now : Nat) (timer : Option xktimer_t) :
    Option xktimer_t × List Nat :=
  match timer with
  | none => (none, [])
  | some t =>
    let r := handle_body now t
    (some r.1, r.2)

/-- Poll `xktimer_handle` on one timer at the consecutive clock values
`s, s+1, ..., s+n-1`, threading the record through; collects the callback
invocations as (time, argument) pairs. -/
def handle_poll_from (s : Nat) : Nat → xktimer_t → xktimer_t × List (Nat × Nat)
  | 0, t => (t, [])
  | n + 1, t =>
    let r1 := handle_body s t
    let r2 := handle_poll_from (s + 1) n r1.1
    (r2.1, r1.2.map (fun a => (s, a)) ++ r2.2)

/-- Poll `xktimer_periodic` at the consecutive clock values
`s, s+1, ..., s+n-1`, threading the tick reference `r` through; returns the
list of times at which it returned `true`. -/
def periodic_poll_from (period : Nat) : Nat → Nat → Nat → List Nat
  | _, _, 0 => []
  | r, s, n + 1 =>
    if (xktimer_periodic s r period).1 = true then
      s :: periodic_poll_from period (xktimer_periodic s r period).2 (s + 1) n
    else
      periodic_poll_from period (xktimer_periodic s r period).2 (s + 1) n

/-- Starting a timer rewrites exactly the `enabled`, `state` and `ticks`
fields; since the phase is forced to 0 the new deadline uses the first
timeout. -/
theorem start_body_eq (now : Nat) (t : xktimer_t) :
    start_body now t =
      { t with enabled := true, state := 0, ticks := now + t.timeout } := rfl

/-- Recomputing the deadline leaves the phase untouched. -/
theorem update_ticks_body_state (now : Nat) (t : xktimer_t) :
    (update_ticks_body now t).state = t.state := by
  simp only [update_ticks_body]
  split <;> rfl

/-- Recomputing the deadline leaves the type tag untouched. -/
theorem update_ticks_body_type (now : Nat) (t : xktimer_t) :
    (update_ticks_body now t).type = t.type := by
  simp only [update_ticks_body]
  split <;> rfl

/-- Evaluation of `xktimer_add` on a non-null timer when the registry is
full. -/
theorem xktimer_add_full_eq (now ty tmo : Nat) (reg : List xktimer_t)
    (cb : Bool) (t : xktimer_t) (hc : XKTIMER_MAX_TIMERS ≤ reg.length) :
    xktimer_add now reg (some t) ty tmo cb = (reg, some t, false) := by
  simp [xktimer_add, hc]

/-- Evaluation of `xktimer_add` on a non-null timer with spare capacity. -/
theorem xktimer_add_some_eq (now ty tmo : Nat) (reg : List xktimer_t)
    (cb : Bool) (t : xktimer_t) (hc : ¬ XKTIMER_MAX_TIMERS ≤ reg.length) :
    xktimer_add now reg (some t) ty tmo cb =
      (reg ++
          [update_ticks_body now
            { t with type := ty, enabled := false, state := 0,
                     timeout := tmo, timeout2 := 0, callback := cb }],
        some
          (update_ticks_body now
            { t with type := ty, enabled := false, state := 0,
                     timeout := tmo, timeout2 := 0, callback := cb }),
        true) := by
  simp [xktimer_add, hc]

/-- Evaluation of `xktimer_add_dual` on a non-null timer when the registry is
full. -/
theorem xktimer_add_dual_full_eq (now tmo tmo2 : Nat) (reg : List xktimer_t)
    (cb : Bool) (t : xktimer_t) (hc : XKTIMER_MAX_TIMERS ≤ reg.length) :
    xktimer_add_dual now reg (some t) tmo tmo2 cb = (reg, some t, false) := by
  simp [xktimer_add_dual, hc]

/-- Evaluation of `xktimer_add_dual` on a non-null timer with spare
capacity. -/
theorem xktimer_add_dual_some_eq (now tmo tmo2 : Nat) (reg : List xktimer_t)
    (cb : Bool) (t : xktimer_t) (hc : ¬ XKTIMER_MAX_TIMERS ≤ reg.length) :
    xktimer_add_dual now reg (some t) tmo tmo2 cb =
      (reg ++
          [update_ticks_body now
            { t with type := XKTIMER_DUAL_STATE, enabled := false,
                     state := 0, timeout := tmo, timeout2 := tmo2,
                     callback := cb }],
        some
          (update_ticks_body now
            { t with type := XKTIMER_DUAL_STATE, enabled := false,
                     state := 0, timeout := tmo, timeout2 := tmo2,
                     callback := cb }),
        true) := by
  simp [xktimer_add_dual, hc]

/-- Claim C1 (code bug): a DualState timer registered with timeouts (2, 3),
started at time 0 and polled at every tick 0..12 fires at times
2, 5, 7, 10, 12 — so the inter-fire gaps do alternate T0, T1, T0, T1 as
claimed — but the callback phase arguments are 1, 0, 1, 0, 1, not the
0, 1, 0, 1 sequence the claim (and the module's own header documentation,
which says the state parameter is 0 after the first timeout completes)
requires: `xktimer_handle` toggles `state` before invoking the callback. -/
theorem dualState_phase_trace_eval :
    xktimer_start 0
        (xktimer_add_dual 0 [] (some ⟨0, false, 0, 0, 0, 0, false⟩)
          2 3 true).2.1 =
      some ⟨XKTIMER_DUAL_STATE, true, 0, 2, 3, 2, true⟩ ∧
    (handle_poll_from 0 13
        ⟨XKTIMER_DUAL_STATE, true, 0, 2, 3, 2, true⟩).2.map Prod.fst =
      [2, 5, 7, 10, 12] ∧
    (handle_poll_from 0 13
        ⟨XKTIMER_DUAL_STATE, true, 0, 2, 3, 2, true⟩).2.map Prod.snd =
      [1, 0, 1, 0, 1] ∧
    (handle_poll_from 0 13
        ⟨XKTIMER_DUAL_STATE, true, 0, 2, 3, 2, true⟩).2.map Prod.snd ≠
      [0, 1, 0, 1, 0] := by
  refine ⟨rfl, rfl, rfl, by decide⟩

/-- Claim C7: `xktimer_stop` clears `enabled` and leaves every other field of
the record — phase, deadline, both timeouts, type and callback — unchanged. -/
theorem stop_only_clears_enabled (t : xktimer_t) :
    ∃ u, xktimer_stop (some t) = some u ∧ u.enabled = false ∧
      u.state = t.state ∧ u.ticks = t.ticks ∧ u.timeout = t.timeout ∧
      u.timeout2 = t.timeout2 ∧ u.type = t.type ∧ u.callback = t.callback :=
  ⟨stop_body t, rfl, rfl, rfl, rfl, rfl, rfl, rfl, rfl⟩

/-- Claim C9: every timer-taking operation invoked on a null reference is a
no-op on all state (void-returning operations return without touching the
registry or any record) or returns its zero/false default, and the null
branch is total. -/
theorem null_reference_defaults (now tmo tmo2 ty : Nat) (rawClock : Int)
    (reg : List xktimer_t) (cb : Bool) :
    xktimer_add now reg none ty tmo cb = (reg, none, false) ∧
    xktimer_add_dual now reg none tmo tmo2 cb = (reg, none, false) ∧
    xktimer_update_ticks now none = none ∧
    xktimer_timeout none = 0 ∧
    xktimer_timeout2 none = 0 ∧
    xktimer_next_timeout rawClock none = 0 ∧
    xktimer_set_timeout now tmo none = none ∧
    xktimer_set_timeout_dual now tmo tmo2 none = none ∧
    xktimer_start now none = none ∧
    xktimer_stop none = none ∧
    xktimer_running none = false ∧
    xktimer_handle now none = (none, []) :=
  ⟨rfl, rfl, rfl, rfl, rfl, rfl, rfl, rfl, rfl, rfl, rfl, rfl⟩

/-- Claim C4: once `XKTIMER_MAX_TIMERS` records are registered, the next
registration call (either variant) returns failure and leaves the registry
contents, the registry count, and the timer argument entirely unchanged. -/
theorem register_capacity_exceeded_noop (now ty tmo tmo2 : Nat)
    (reg : List xktimer_t) (cb : Bool) (tm : Option xktimer_t)
    (h : XKTIMER_MAX_TIMERS ≤ reg.length) :
    xktimer_add now reg tm ty tmo cb = (reg, tm, false) ∧
    xktimer_add_dual now reg tm tmo tmo2 cb = (reg, tm, false) := by
  cases tm with
  | none => exact ⟨rfl, rfl⟩
  | some t => simp [xktimer_add, xktimer_add_dual, h]

/-- Witness for `register_capacity_exceeded_noop` at a concrete full
registry. -/
theorem register_capacity_exceeded_noop_witness :
    XKTIMER_MAX_TIMERS ≤
      (List.replicate 30 (⟨1, false, 0, 5, 0, 5, false⟩ : xktimer_t)).length ∧
    xktimer_add 7 (List.replicate 30 ⟨1, false, 0, 5, 0, 5, false⟩)
        (some ⟨0, false, 0, 0, 0, 0, true⟩) 1 10 true =
      (List.replicate 30 ⟨1, false, 0, 5, 0, 5, false⟩,
        some ⟨0, false, 0, 0, 0, 0, true⟩, false) :=
  ⟨by decide,
    (register_capacity_exceeded_noop 7 1 10 0
      (List.replicate 30 ⟨1, false, 0, 5, 0, 5, false⟩) true
      (some ⟨0, false, 0, 0, 0, 0, true⟩) (by decide)).1⟩

/-- Claim C3: whenever a registration call succeeds, the stored record has
`enabled = false` and its deadline is `now + timeout`, the first timeout (the
phase having been initialized to 0). -/
theorem register_initializes_disabled_with_deadline (now ty tmo tmo2 : Nat)
    (reg : List xktimer_t) (cb : Bool) (tm : Option xktimer_t) :
    ((xktimer_add now reg tm ty tmo cb).2.2 = true →
      ∃ u, (xktimer_add now reg tm ty tmo cb).2.1 = some u ∧
        u.enabled = false ∧ u.ticks = now + tmo) ∧
    ((xktimer_add_dual now reg tm tmo tmo2 cb).2.2 = true →
      ∃ u, (xktimer_add_dual now reg tm tmo tmo2 cb).2.1 = some u ∧
        u.enabled = false ∧ u.ticks = now + tmo) := by
  cases tm with
  | none => exact ⟨fun h => absurd h (by simp [xktimer_add]),
      fun h => absurd h (by simp [xktimer_add_dual])⟩
  | some t =>
    by_cases hc : XKTIMER_MAX_TIMERS ≤ reg.length
    · exact ⟨fun h => absurd h (by simp [xktimer_add, hc]),
        fun h => absurd h (by simp [xktimer_add_dual, hc])⟩
    · refine ⟨fun _ => ⟨update_ticks_body now
          { t with type := ty, enabled := false, state := 0, timeout := tmo,
                   timeout2 := 0, callback := cb }, ?_, ?_, ?_⟩,
        fun _ => ⟨update_ticks_body now
          { t with type := XKTIMER_DUAL_STATE, enabled := false, state := 0,
                   timeout := tmo, timeout2 := tmo2, callback := cb },
          ?_, ?_, ?_⟩⟩
      · simp [xktimer_add, hc]
      · simp [update_ticks_body]
      · simp [update_ticks_body]
      · simp [xktimer_add_dual, hc]
      · simp [update_ticks_body]
      · simp [update_ticks_body]

/-- Witness for `register_initializes_disabled_with_deadline` at a concrete
registration. -/
theorem register_initializes_disabled_with_deadline_witness :
    (xktimer_add 4 [] (some ⟨0, true, 1, 0, 0, 0, false⟩) 2 9 true).2.2 =
      true ∧
    ∃ u, (xktimer_add 4 [] (some ⟨0, true, 1, 0, 0, 0, false⟩) 2 9
        true).2.1 = some u ∧ u.enabled = false ∧ u.ticks = 4 + 9 :=
  ⟨by decide,
    (register_initializes_disabled_with_deadline 4 2 9 0 [] true
      (some ⟨0, true, 1, 0, 0, 0, false⟩)).1 (by decide)⟩

/-- Claim C2: a SingleShot timer with timeout `T` started at `t0` ignores any
check strictly before `t0 + T`; a check at or after `t0 + T` disables the
timer and invokes the callback exactly once with argument 0; and any check on
a disabled timer is a no-op (so subsequent checks do nothing until the timer
is started again). -/
theorem singleShot_check_semantics (t : xktimer_t) (t0 T n m : Nat)
    (u : xktimer_t) (hty : t.type = XKTIMER_SINGLE_SHOT) (hT : t.timeout = T)
    (hcb : t.callback = true) :
    (n < t0 + T → handle_body n (start_body t0 t) = (start_body t0 t, [])) ∧
    (t0 + T ≤ n →
      handle_body n (start_body t0 t) =
        ({ t with enabled := false, state := 0, ticks := n + T }, [0])) ∧
    (u.enabled = false → handle_body m u = (u, [])) := by
  subst hT
  refine ⟨?_, ?_, ?_⟩
  · intro hn
    rw [start_body_eq]
    have h1 : ¬ (t0 + t.timeout ≤ n) := by omega
    simp [handle_body, h1]
  · intro hn
    rw [start_body_eq]
    simp [handle_body, update_ticks_body, hty, hcb, hn]
  · intro hu
    simp [handle_body, hu]

/-- Witness for `singleShot_check_semantics`: the 1000 ms timer of the spec's
example, started at 0 and checked at 1000, fires once with argument 0 and
ends up disabled. -/
theorem singleShot_check_semantics_witness :
    0 + 1000 ≤ 1000 ∧
    handle_body 1000 (start_body 0 ⟨1, false, 0, 1000, 0, 0, true⟩) =
      (⟨1, false, 0, 1000, 0, 1000 + 1000, true⟩, [0]) :=
  ⟨by decide,
    (singleShot_check_semantics ⟨1, false, 0, 1000, 0, 0, true⟩ 0 1000 1000 0
      ⟨1, true, 0, 0, 0, 0, false⟩ rfl rfl rfl).2.1 (by decide)⟩

/-- Claim C5: one check of an enabled, expired timer performs at most one
callback invocation (however many periods were skipped), exactly one when a
callback is present, none when absent; the invocation argument is the
possibly-just-toggled phase of the returned record, and the returned deadline
was already recomputed from that new phase — i.e. the recompute precedes the
callback. -/
theorem check_recomputes_then_fires_once (t : xktimer_t) (now : Nat)
    (hen : t.enabled = true) (hdl : t.ticks ≤ now) :
    (handle_body now t).2.length ≤ 1 ∧
    (t.callback = true →
      (handle_body now t).2 = [(handle_body now t).1.state]) ∧
    (t.callback = false → (handle_body now t).2 = []) ∧
    (handle_body now t).1.ticks =
      now +
        (if (handle_body now t).1.state = 0 then t.timeout else t.timeout2) ∧
    (t.type = XKTIMER_DUAL_STATE →
      (handle_body now t).1.state = if t.state = 0 then 1 else 0) := by
  rcases Bool.eq_false_or_eq_true t.callback with hcb | hcb <;>
    by_cases h1 : t.type = XKTIMER_SINGLE_SHOT <;>
    by_cases h2 : t.type = XKTIMER_PERIODIC <;>
    by_cases h3 : t.type = XKTIMER_DUAL_STATE <;>
    by_cases hs : t.state = 0 <;>
    simp_all [handle_body, update_ticks_body, XKTIMER_SINGLE_SHOT,
      XKTIMER_PERIODIC, XKTIMER_DUAL_STATE]

/-- Witness for `check_recomputes_then_fires_once` on a concrete expired
dual-state timer. -/
theorem check_recomputes_then_fires_once_witness :
    (⟨3, true, 0, 2, 3, 2, true⟩ : xktimer_t).enabled = true ∧
    (⟨3, true, 0, 2, 3, 2, true⟩ : xktimer_t).ticks ≤ 9 ∧
    (handle_body 9 ⟨3, true, 0, 2, 3, 2, true⟩).2.length ≤ 1 :=
  ⟨rfl, by decide,
    (check_recomputes_then_fires_once ⟨3, true, 0, 2, 3, 2, true⟩ 9 rfl
      (by decide)).1⟩

/-- Claim C8: registration and `start` establish `state = 0`; `stop`,
`set_timeout` and (for a non-DualState type) `check` preserve the phase, so a
non-DualState timer keeps `state = 0` under every operation of the module;
for a DualState timer an expired check toggles the phase strictly 0→1 and
1→0, `start` and `set_timeout_dual` reset it to 0, and any check keeps the
phase inside {0, 1}. -/
theorem state_pinned_or_toggled (now tmo tmo2 ty : Nat) (reg : List xktimer_t)
    (cb : Bool) (t : xktimer_t) :
    ((xktimer_add now reg (some t) ty tmo cb).2.2 = true →
      ∀ v, (xktimer_add now reg (some t) ty tmo cb).2.1 = some v →
        v.state = 0) ∧
    ((xktimer_add_dual now reg (some t) tmo tmo2 cb).2.2 = true →
      ∀ v, (xktimer_add_dual now reg (some t) tmo tmo2 cb).2.1 = some v →
        v.state = 0) ∧
    (start_body now t).state = 0 ∧
    (stop_body t).state = t.state ∧
    (set_timeout_body now tmo t).state = t.state ∧
    (t.type ≠ XKTIMER_DUAL_STATE → (handle_body now t).1.state = t.state) ∧
    (t.type = XKTIMER_DUAL_STATE → t.enabled = true → t.ticks ≤ now →
      (handle_body now t).1.state = if t.state = 0 then 1 else 0) ∧
    (set_timeout_dual_body now tmo tmo2 t).state = 0 ∧
    ((t.state = 0 ∨ t.state = 1) →
      ((handle_body now t).1.state = 0 ∨ (handle_body now t).1.state = 1)) :=
  by
  refine ⟨?_, ?_, ?_, ?_, ?_, ?_, ?_, ?_, ?_⟩
  · intro hs v hv
    by_cases hc : XKTIMER_MAX_TIMERS ≤ reg.length
    · rw [xktimer_add_full_eq now ty tmo reg cb t hc] at hs
      exact absurd hs (by simp)
    · rw [xktimer_add_some_eq now ty tmo reg cb t hc] at hv
      have hv2 :
          update_ticks_body now
            { t with type := ty, enabled := false, state := 0,
                     timeout := tmo, timeout2 := 0, callback := cb } = v := by
        simpa using hv
      rw [← hv2, update_ticks_body_state]
  · intro hs v hv
    by_cases hc : XKTIMER_MAX_TIMERS ≤ reg.length
    · rw [xktimer_add_dual_full_eq now tmo tmo2 reg cb t hc] at hs
      exact absurd hs (by simp)
    · rw [xktimer_add_dual_some_eq now tmo tmo2 reg cb t hc] at hv
      have hv2 :
          update_ticks_body now
            { t with type := XKTIMER_DUAL_STATE, enabled := false,
                     state := 0, timeout := tmo, timeout2 := tmo2,
                     callback := cb } = v := by
        simpa using hv
      rw [← hv2, update_ticks_body_state]
  · rfl
  · rfl
  · simp only [set_timeout_body, update_ticks_body]
    split <;> rfl
  · intro h3
    by_cases hen : t.enabled = false
    · simp [handle_body, hen]
    · by_cases hdl : t.ticks ≤ now
      · by_cases h1 : t.type = XKTIMER_SINGLE_SHOT <;>
          by_cases h2 : t.type = XKTIMER_PERIODIC <;>
          by_cases hs : t.state = 0 <;>
          simp_all [handle_body, update_ticks_body]
      · simp [handle_body, hen, hdl]
  · intro h3 hen hdl
    by_cases hs : t.state = 0 <;>
      simp_all [handle_body, update_ticks_body, XKTIMER_SINGLE_SHOT,
        XKTIMER_PERIODIC, XKTIMER_DUAL_STATE]
  · simp only [set_timeout_dual_body, update_ticks_body]
    rfl
  · intro hs01
    by_cases hen : t.enabled = false
    · simpa [handle_body, hen] using hs01
    · by_cases hdl : t.ticks ≤ now
      · by_cases h1 : t.type = XKTIMER_SINGLE_SHOT <;>
          by_cases h2 : t.type = XKTIMER_PERIODIC <;>
          by_cases h3 : t.type = XKTIMER_DUAL_STATE <;>
          by_cases hs : t.state = 0 <;>
          simp_all [handle_body, update_ticks_body]
      · simpa [handle_body, hen, hdl] using hs01

/-- Witness for `state_pinned_or_toggled`: an expired dual-state check
toggles the phase 0→1 on a concrete timer. -/
theorem state_pinned_or_toggled_witness :
    (⟨3, true, 0, 2, 3, 2, true⟩ : xktimer_t).type = XKTIMER_DUAL_STATE ∧
    (handle_body 5 ⟨3, true, 0, 2, 3, 2, true⟩).1.state =
      (if (⟨3, true, 0, 2, 3, 2, true⟩ : xktimer_t).state = 0
       then 1 else 0) :=
  ⟨rfl,
    (state_pinned_or_toggled 5 7 9 3 [] true
      ⟨3, true, 0, 2, 3, 2, true⟩).2.2.2.2.2.2.1 rfl rfl (by decide)⟩

/-- Claim C10: `xktimer_add` stores an out-of-range type tag verbatim (no
coercion to SingleShot), and on expiry `xktimer_handle` treats such a timer
exactly like a Periodic one — the record stays enabled, the deadline is
recomputed, the callback fires, and the result agrees with the Periodic
result in every field but the stored tag. -/
theorem unknown_type_acts_periodic (now ty tmo n : Nat) (reg : List xktimer_t)
    (cb : Bool) (t u : xktimer_t)
    (h1 : ty ≠ XKTIMER_SINGLE_SHOT) (h2 : ty ≠ XKTIMER_PERIODIC)
    (h3 : ty ≠ XKTIMER_DUAL_STATE) :
    ((xktimer_add now reg (some t) ty tmo cb).2.2 = true →
      ∃ v, (xktimer_add now reg (some t) ty tmo cb).2.1 = some v ∧
        v.type = ty) ∧
    (u.type = ty → u.enabled = true → u.ticks ≤ n →
      (handle_body n u).1.enabled = true ∧
      (handle_body n u).1.ticks =
        n + (if u.state = 0 then u.timeout else u.timeout2) ∧
      (handle_body n u).2 = (if u.callback = true then [u.state] else []) ∧
      (handle_body n u).1 =
        { (handle_body n { u with type := XKTIMER_PERIODIC }).1
            with type := ty } ∧
      (handle_body n u).2 =
        (handle_body n { u with type := XKTIMER_PERIODIC }).2) := by
  constructor
  · intro hs
    by_cases hc : XKTIMER_MAX_TIMERS ≤ reg.length
    · rw [xktimer_add_full_eq now ty tmo reg cb t hc] at hs
      exact absurd hs (by simp)
    · rw [xktimer_add_some_eq now ty tmo reg cb t hc]
      exact ⟨_, rfl, by rw [update_ticks_body_type]⟩
  · intro hu hen hdl
    subst hu
    refine ⟨?_, ?_, ?_, ?_, ?_⟩ <;>
      by_cases hs : u.state = 0 <;>
      by_cases hcb : u.callback = true <;>
      simp_all [handle_body, update_ticks_body, XKTIMER_SINGLE_SHOT,
        XKTIMER_PERIODIC, XKTIMER_DUAL_STATE]

/-- Witness for `unknown_type_acts_periodic` with the out-of-range type tag
7. -/
theorem unknown_type_acts_periodic_witness :
    (7 : Nat) ≠ XKTIMER_SINGLE_SHOT ∧
    (handle_body 9 ⟨7, true, 0, 4, 0, 9, true⟩).1.enabled = true ∧
    (handle_body 9 ⟨7, true, 0, 4, 0, 9, true⟩).1.ticks = 9 + 4 :=
  ⟨by decide,
    ((unknown_type_acts_periodic 9 7 4 9 [] true ⟨0, false, 0, 0, 0, 0, false⟩
        ⟨7, true, 0, 4, 0, 9, true⟩ (by decide) (by decide) (by decide)).2
      rfl rfl (by decide)).1,
    by
      have h :=
        ((unknown_type_acts_periodic 9 7 4 9 [] true
            ⟨0, false, 0, 0, 0, 0, false⟩ ⟨7, true, 0, 4, 0, 9, true⟩
            (by decide) (by decide) (by decide)).2 rfl rfl (by decide)).2.1
      simpa using h⟩

/-- Membership in the firing trace of `xktimer_periodic` polled at every
tick: with a positive period, reference `r` and polling start `s` inside the
current window (`r ≤ s ≤ r + P`), the helper returns true exactly at the
times `r + P, r + 2P, ...` that fall inside the polled range. -/
theorem periodic_poll_from_mem (P : Nat) (hP : 0 < P) :
    ∀ (n r s t : Nat), r ≤ s → s ≤ r + P →
      (t ∈ periodic_poll_from P r s n ↔
        (s ≤ t ∧ t < s + n ∧ r + P ≤ t ∧ (t - r) % P = 0)) := by
  intro n
  induction n with
  | zero =>
    intro r s t h1 h2
    simp [periodic_poll_from]
    omega
  | succ n ih =>
    intro r s t h1 h2
    by_cases hf : r + P ≤ s
    · have hs : s = r + P := by omega
      subst hs
      rw [periodic_poll_from, if_pos (by simp [xktimer_periodic])]
      have hsnd : (xktimer_periodic (r + P) r P).2 = r + P := by
        simp [xktimer_periodic]
      rw [hsnd, List.mem_cons,
        ih (r + P) (r + P + 1) t (by omega) (by omega)]
      constructor
      · rintro (rfl | ⟨ha, hb, hc, hd⟩)
        · refine ⟨by omega, by omega, by omega, ?_⟩
          rw [Nat.add_sub_cancel_left, Nat.mod_self]
        · refine ⟨by omega, by omega, by omega, ?_⟩
          have he : t - r = (t - (r + P)) + P := by omega
          rw [he, Nat.add_mod_right]
          exact hd
      · rintro ⟨ha, hb, hc, hd⟩
        by_cases ht : t = r + P
        · exact Or.inl ht
        · have hd2 : (t - (r + P)) % P = 0 := by
            have he : t - r = (t - (r + P)) + P := by omega
            rw [he, Nat.add_mod_right] at hd
            exact hd
          have hge : P ≤ t - (r + P) := by
            rcases Nat.eq_zero_or_pos (t - (r + P)) with h0 | h0
            · omega
            · exact Nat.le_of_dvd h0 (Nat.dvd_of_mod_eq_zero hd2)
          exact Or.inr ⟨by omega, by omega, by omega, hd2⟩
    · rw [periodic_poll_from, if_neg (by simp [xktimer_periodic, hf])]
      have hsnd : (xktimer_periodic s r P).2 = r := by
        simp [xktimer_periodic, hf]
      rw [hsnd, ih r (s + 1) t (by omega) (by omega)]
      constructor <;> rintro ⟨ha, hb, hc, hd⟩ <;>
        exact ⟨by omega, by omega, by omega, hd⟩

/-- Claim C6: `xktimer_periodic` returns true and resets the caller's tick
reference to the current clock value exactly when `now - ticks_ref ≥ period`
(the integer difference, matching the signed C arithmetic), and returns
false leaving the reference unchanged otherwise; polled at every tick from a
fresh reference it returns false until the period has elapsed and then true
exactly once per period-tick interval. -/
theorem xktimer_periodic_spec (P : Nat) (hP : 0 < P) :
    (∀ now r : Nat,
      ((xktimer_periodic now r P).1 = true ↔
        (P : Int) ≤ (now : Int) - (r : Int)) ∧
      ((xktimer_periodic now r P).1 = true →
        (xktimer_periodic now r P).2 = now) ∧
      ((xktimer_periodic now r P).1 = false →
        (xktimer_periodic now r P).2 = r)) ∧
    (∀ r n t : Nat,
      t ∈ periodic_poll_from P r r n ↔
        (r + P ≤ t ∧ t < r + n ∧ (t - r) % P = 0)) := by
  constructor
  · intro now r
    by_cases h : r + P ≤ now <;>
      refine ⟨?_, ?_, ?_⟩ <;> simp [xktimer_periodic, h] <;> omega
  · intro r n t
    rw [periodic_poll_from_mem P hP n r r t le_rfl (by omega)]
    constructor
    · rintro ⟨ha, hb, hc, hd⟩
      exact ⟨by omega, by omega, hd⟩
    · rintro ⟨ha, hb, hd⟩
      exact ⟨by omega, by omega, by omega, hd⟩

/-- Witness for `xktimer_periodic_spec` with period 3 and a fresh reference
5: polling at ticks 5..16 fires exactly at 8, 11, 14. -/
theorem xktimer_periodic_spec_witness :
    0 < 3 ∧
    ((xktimer_periodic 8 5 3).1 = true ↔ (3 : Int) ≤ (8 : Int) - (5 : Int)) ∧
    (11 ∈ periodic_poll_from 3 5 5 12 ↔
      (5 + 3 ≤ 11 ∧ 11 < 5 + 12 ∧ (11 - 5) % 3 = 0)) :=
  ⟨by decide, ((xktimer_periodic_spec 3 (by decide)).1 8 5).1,
    (xktimer_periodic_spec 3 (by decide)).2 5 12 11⟩

end XKTimer
